import Mathlib

/-!
Verification of the PRONAS AI service core
(`services/ai-service/src/{ml_models,bias_detector,nlp_engine,main}.py`)
against its natural-language specification.

Conventions of the shallow embedding:
* Python numbers (ints and floats) are modelled as exact rationals `ℚ`;
  floating-point rounding never changes any flag or branch in the code
  under study, and exact equalities imply the spec's 1e-6 tolerances.
* External model capabilities (sentence embeddings + cosine similarity,
  sentiment classification, spaCy sentence segmentation) are passed in as
  explicit function parameters, mirroring the spec's treatment of them as
  opaque capability interfaces.
* Python exceptions are modelled with `Except String`; `await`/ordinary
  call sequencing becomes monadic bind, so an uncaught exception in a
  callee aborts the caller exactly as in Python.
* Dynamically-typed JSON-ish dictionaries (the `Dict[str, Any]` payloads
  of the bias-detection endpoint) are modelled by the `PyVal` type below,
  with the Python operations (`.get`, `.lower()`, `len`, numeric
  comparison, dict membership) raising on ill-typed operands exactly
  where CPython raises.
-/

namespace Pronas

/-! ## Python string primitives

Used throughout; implemented over `List Char` so that every
definition evaluates by kernel reduction; case folding is ASCII (all
case-sensitive comparisons in the source are on ASCII letters). -/

/-- Python `str.lower()` (ASCII case folding). -/
def strLower (s : String) : String := String.mk (s.data.map Char.toLower)

/-- Python `str.strip()`: drop leading and trailing whitespace. -/
def strTrim (s : String) : String :=
  String.mk ((((s.data.dropWhile Char.isWhitespace).reverse).dropWhile
    Char.isWhitespace).reverse)

/-- Python `s[:n]`: the first `n` characters. -/
def strTake (s : String) (n : ℕ) : String := String.mk (s.data.take n)

/-- Accumulating splitter behind `pyWords`. -/
def wordsAux : List Char → List Char → List String
  | [], acc => if acc.isEmpty then [] else [String.mk acc.reverse]
  | c :: cs, acc =>
    if c.isWhitespace then
      if acc.isEmpty then wordsAux cs [] else String.mk acc.reverse :: wordsAux cs []
    else wordsAux cs (c :: acc)

/-- Python `str.split()` with no argument: split on whitespace runs,
dropping empty pieces. -/
def pyWords (s : String) : List String := wordsAux s.data []

/-- Whether the first list is a prefix of the second. -/
def isPrefixOfChars : List Char → List Char → Bool
  | [], _ => true
  | _ :: _, [] => false
  | a :: as, b :: bs => a == b && isPrefixOfChars as bs

/-- Whether `needle` occurs as a contiguous sublist of `hay`. -/
def containsSub (needle : List Char) : List Char → Bool
  | [] => isPrefixOfChars needle []
  | c :: cs => isPrefixOfChars needle (c :: cs) || containsSub needle cs

/-- Python substring test `needle in hay` for strings. -/
def pySubstr (needle hay : String) : Bool := containsSub needle.data hay.data

/-- Strip `pre` from the front of `l`, returning the remainder. -/
def stripPrefixChars : List Char → List Char → Option (List Char)
  | [], l => some l
  | _ :: _, [] => none
  | a :: as, b :: bs => if a == b then stripPrefixChars as bs else none

/-- Fuelled worker for `pyReplace`; the fuel is the input length, enough
because each step consumes at least one character (`old` is non-empty at
every call site, as in the source). -/
def replaceAux (old new : List Char) : ℕ → List Char → List Char
  | _, [] => []
  | 0, l => l
  | fuel + 1, c :: cs =>
    match stripPrefixChars old (c :: cs) with
    | some rest => new ++ replaceAux old new fuel rest
    | none => c :: replaceAux old new fuel cs

/-- Python `s.replace(old, new)`: replace all non-overlapping
occurrences, left to right. -/
def pyReplace (s old new : String) : String :=
  String.mk (replaceAux old.data new.data s.data.length s.data)


/-- A JSON-ish dynamically typed Python value, as received by the
`Dict[str, Any]` endpoints.  Ints and floats are collapsed into `pnum`. -/
inductive PyVal where
  | pstr : String → PyVal
  | pnum : ℚ → PyVal
  | plist : List PyVal → PyVal
  | pdict : List (String × PyVal) → PyVal
  | pnone : PyVal

/-- A top-level `Dict[str, Any]` request payload. -/
def PData : Type := List (String × PyVal)

/-- Python `d.get(k, default)` on a value statically known to be a dict
(the endpoint's top-level payload). -/
def topGet (pd : PData) (k : String) (default : PyVal) : PyVal :=
  (List.lookup k pd).getD default

/-- Python `v.get(k, default)`: raises `AttributeError` unless `v` is a
dict. -/
def pyGetE (v : PyVal) (k : String) (default : PyVal) : Except String PyVal :=
  match v with
  | .pdict d => .ok ((List.lookup k d).getD default)
  | _ => .error "AttributeError: get"

/-- Python `len(v)`: defined for strings, lists and dicts, raises
`TypeError` for numbers and `None`. -/
def pyLen (v : PyVal) : Except String ℕ :=
  match v with
  | .pstr s => .ok s.length
  | .plist l => .ok l.length
  | .pdict d => .ok d.length
  | _ => .error "TypeError: len"

/-- Python numeric coercion for an ordering comparison against a number:
raises `TypeError` unless the operand is a number. -/
def pyToNum (v : PyVal) : Except String ℚ :=
  match v with
  | .pnum q => .ok q
  | _ => .error "TypeError: comparison"

/-- Python `v.lower()`: raises `AttributeError` unless `v` is a string. -/
def pyLower (v : PyVal) : Except String String :=
  match v with
  | .pstr s => .ok (strLower s)
  | _ => .error "AttributeError: lower"

/-- Python `v in d` for a dict `d` with string keys: `False` for hashable
non-strings, `TypeError` for unhashable values (lists, dicts). -/
def pyInStrKeys (v : PyVal) (keys : List String) : Except String Bool :=
  match v with
  | .pstr s => .ok (keys.contains s)
  | .pnum _ => .ok false
  | .pnone => .ok false
  | .plist _ => .error "TypeError: unhashable type: list"
  | .pdict _ => .error "TypeError: unhashable type: dict"

/-- Result of one bias detector (`bias_detector.py`, the per-detector
`bias_result` dict). -/
structure BiasResult where
  type_ : String
  detected : Bool
  score : ℚ
  description : String
deriving DecidableEq, Repr

/-- The fairness metrics triple.  In the source these are three
`np.random.uniform` draws; the sampled triple is threaded in as an
explicit parameter to keep the embedding a pure function. -/
structure FairnessMetrics where
  demographic_parity : ℚ
  equal_opportunity : ℚ
  disparate_impact : ℚ
deriving DecidableEq, Repr

/-- The aggregate report built by `BiasDetector.analyze`. -/
structure BiasReport where
  bias_detected : Bool
  bias_score : ℚ
  patterns : List BiasResult
  recommendations : List String
  fairness_metrics : FairnessMetrics
deriving DecidableEq, Repr

/-- Historical approval rates by institution type
(`_detect_institutional_bias`). -/
def approval_rates : List (String × ℚ) :=
  [("university", 0.75), ("hospital", 0.70), ("ngo", 0.45), ("private", 0.40)]

/-- `np.mean` of the approval-rate table values. -/
def avg_approval : ℚ := ((approval_rates.map Prod.snd).sum) / approval_rates.length

/-- `BiasDetector._detect_institutional_bias`. -/
def detectInstitutionalBias (pd : PData) : Except String BiasResult := do
  let institution_type := topGet pd "institution_type" (.pstr "")
  let mem ← pyInStrKeys institution_type (approval_rates.map Prod.fst)
  if mem then
    match institution_type with
    | .pstr s =>
      match List.lookup s approval_rates with
      | some rate =>
        if |rate - avg_approval| > 0.15 then
          pure { type_ := "institutional", detected := true,
                 score := |rate - avg_approval|,
                 description := "Instituições do tipo \x27" ++ s ++
                   "\x27 têm taxa de aprovação " ++
                   (if rate > avg_approval then "superior" else "inferior") ++
                   " à média" }
        else
          pure { type_ := "institutional", detected := false, score := 0, description := "" }
      | none => pure { type_ := "institutional", detected := false, score := 0, description := "" }
    | _ => pure { type_ := "institutional", detected := false, score := 0, description := "" }
  else
    pure { type_ := "institutional", detected := false, score := 0, description := "" }

/-- Regional share table (`_detect_geographic_bias`). -/
def regional_distribution : List (String × ℚ) :=
  [("sudeste", 0.45), ("sul", 0.25), ("nordeste", 0.15),
   ("centro-oeste", 0.10), ("norte", 0.05)]

/-- The uniform expectation `1 / len(regional_distribution)`. -/
def expected_distribution : ℚ := 1 / regional_distribution.length

/-- `BiasDetector._detect_geographic_bias`.  `region.lower()` raises when
the payload's `region` value is not a string. -/
def detectGeographicBias (pd : PData) : Except String BiasResult := do
  let region := topGet pd "region" (.pstr "")
  let rlow ← pyLower region
  match List.lookup rlow regional_distribution with
  | some actual =>
    if |actual - expected_distribution| > 0.1 then
      let rtext := match region with | .pstr s => s | _ => ""
      pure { type_ := "geographic", detected := true,
             score := |actual - expected_distribution|,
             description := "Região " ++ rtext ++ " está " ++
               (if actual > expected_distribution then "sobre" else "sub") ++
               "-representada nos projetos aprovados" }
    else
      pure { type_ := "geographic", detected := false, score := 0, description := "" }
  | none => pure { type_ := "geographic", detected := false, score := 0, description := "" }

/-- `BiasDetector._detect_complexity_bias`. -/
def detectComplexityBias (pd : PData) : Except String BiasResult := do
  let specific ← pyGetE (topGet pd "objectives" (.pdict [])) "specific" (.plist [])
  let nspec ← pyLen specific
  let c1 : ℕ := if nspec > 5 then 1 else 0
  let btotal ← pyGetE (topGet pd "budget" (.pdict [])) "total" (.pnum 0)
  let b ← pyToNum btotal
  let c2 : ℕ := if b > 1000000 then 1 else 0
  let ntl ← pyLen (topGet pd "timeline" (.plist []))
  let c3 : ℕ := if ntl > 8 then 1 else 0
  let ntm ← pyLen (topGet pd "team" (.plist []))
  let c4 : ℕ := if ntm > 10 then 1 else 0
  if c1 + c2 + c3 + c4 ≥ 3 then
    pure { type_ := "complexity", detected := true, score := 0.3,
           description := "Projetos com alta complexidade tendem a ter tratamento diferenciado" }
  else
    pure { type_ := "complexity", detected := false, score := 0, description := "" }

/-- Budget ranges and their simulated approval rates
(`_detect_budget_bias`); `none` as upper bound models `float('inf')`. -/
def budget_ranges : List (ℚ × Option ℚ × ℚ) :=
  [(0, some 100000, 0.35), (100000, some 500000, 0.65),
   (500000, some 1000000, 0.70), (1000000, none, 0.45)]

/-- Worker for `findBudgetRange`: first range with `min ≤ b < max`. -/
def findRangeAux (b : ℚ) : List (ℚ × Option ℚ × ℚ) → Option (ℚ × Option ℚ × ℚ)
  | [] => none
  | (lo, some hi, rate) :: rs =>
    if lo ≤ b ∧ b < hi then some (lo, some hi, rate) else findRangeAux b rs
  | (lo, none, rate) :: rs =>
    if lo ≤ b then some (lo, none, rate) else findRangeAux b rs

/-- The first budget range containing `b` (the `for ... break` loop). -/
def findBudgetRange (b : ℚ) : Option (ℚ × Option ℚ × ℚ) :=
  findRangeAux b budget_ranges

/-- `BiasDetector._detect_budget_bias`. -/
def detectBudgetBias (pd : PData) : Except String BiasResult := do
  let btotal ← pyGetE (topGet pd "budget" (.pdict [])) "total" (.pnum 0)
  let b ← pyToNum btotal
  match findBudgetRange b with
  | some (lo, _, rate) =>
    if rate < 0.4 ∨ rate > 0.6 then
      pure { type_ := "budget", detected := true, score := |rate - 0.5|,
             description := "Projetos na faixa a partir de R$ " ++ toString lo.num ++
               " têm taxa de aprovação " ++ (if rate > 0.6 then "alta" else "baixa") }
    else
      pure { type_ := "budget", detected := false, score := 0, description := "" }
  | none => pure { type_ := "budget", detected := false, score := 0, description := "" }

/-- The fixed flagged-pattern → recommendation mapping
(`_generate_bias_recommendations` appends one string per known type). -/
def recommendationFor (p : BiasResult) : List String :=
  if p.type_ = "institutional" then
    ["Considere revisar os critérios de avaliação para garantir equidade entre diferentes tipos de instituições"]
  else if p.type_ = "geographic" then
    ["Ajuste o projeto para alinhar com a distribuição geográfica esperada ou justifique a concentração regional"]
  else if p.type_ = "complexity" then
    ["Simplifique a estrutura do projeto ou divida em fases menores para melhorar as chances de aprovação"]
  else if p.type_ = "budget" then
    ["Revise o orçamento para alinhar com faixas de maior probabilidade de aprovação ou justifique detalhadamente os valores"]
  else []

/-- `np.mean` of the scores of a pattern list. -/
def meanScore (ps : List BiasResult) : ℚ := ((ps.map BiasResult.score).sum) / ps.length

/-- `BiasDetector.analyze`: runs the four detectors in order (each
`await` propagates an exception), collects the detected ones, and fills
the aggregate fields.  `fm` is the sampled fairness-metrics triple. -/
def analyze (fm : FairnessMetrics) (pd : PData) : Except String BiasReport := do
  let inst ← detectInstitutionalBias pd
  let geo ← detectGeographicBias pd
  let comp ← detectComplexityBias pd
  let bud ← detectBudgetBias pd
  let patterns :=
    (if inst.detected then [inst] else []) ++ (if geo.detected then [geo] else []) ++
    (if comp.detected then [comp] else []) ++ (if bud.detected then [bud] else [])
  if patterns.isEmpty then
    pure { bias_detected := false, bias_score := 0, patterns := [],
           recommendations := [], fairness_metrics := fm }
  else
    pure { bias_detected := true, bias_score := meanScore patterns,
           patterns := patterns,
           recommendations := patterns.foldr (fun p acc => recommendationFor p ++ acc) [],
           fairness_metrics := fm }

/-- `true` on `Except.ok`. -/
def exceptOk {ε α : Type} : Except ε α → Bool
  | .ok _ => true
  | .error _ => false

/-! ## Project synthesizer (`ml_models.py`) -/

/-- One itemized budget line (`{"description": ..., "value": ...}`). -/
structure BudgetItem where
  description : String
  value : ℚ
deriving DecidableEq, Repr

/-- The category → amount distribution built by `_generate_budget`. -/
structure BudgetDistribution where
  human_resources : ℚ
  equipment : ℚ
  materials : ℚ
  services : ℚ
  indirect_costs : ℚ
deriving DecidableEq, Repr

/-- The category → line-item breakdown built by `_generate_budget`. -/
structure BudgetItems where
  human_resources : List BudgetItem
  equipment : List BudgetItem
  materials : List BudgetItem
  services : List BudgetItem
  indirect_costs : List BudgetItem
deriving DecidableEq, Repr

/-- The budget dict returned by `_generate_budget`. -/
structure Budget where
  total : ℚ
  distribution : BudgetDistribution
  items : BudgetItems
  currency : String
deriving DecidableEq, Repr

/-- `ProjectPredictor._generate_budget`: `data.get('budget', 500000)` is
the total, split by the fixed fractions and itemized per category. -/
def generate_budget (project_type : String) (seed_budget : Option ℚ) : Budget :=
  let base_budget := seed_budget.getD 500000
  { total := base_budget
    distribution :=
      { human_resources := base_budget * 0.40
        equipment := base_budget * 0.20
        materials := base_budget * 0.15
        services := base_budget * 0.15
        indirect_costs := base_budget * 0.10 }
    items :=
      { human_resources :=
          [⟨"Coordenador do Projeto", base_budget * 0.15⟩,
           ⟨"Pesquisadores", base_budget * 0.15⟩,
           ⟨"Equipe de Apoio", base_budget * 0.10⟩]
        equipment :=
          [⟨"Equipamentos de Informática", base_budget * 0.10⟩,
           ⟨"Equipamentos Especializados", base_budget * 0.10⟩]
        materials :=
          [⟨"Material de Consumo", base_budget * 0.08⟩,
           ⟨"Material Didático", base_budget * 0.07⟩]
        services :=
          [⟨"Consultoria Especializada", base_budget * 0.08⟩,
           ⟨"Serviços de Terceiros", base_budget * 0.07⟩]
        indirect_costs :=
          [⟨"Custos Administrativos", base_budget * 0.10⟩] }
    currency := "BRL" }

/-- Sum of the five category amounts of a distribution. -/
def distributionSum (d : BudgetDistribution) : ℚ :=
  d.human_resources + d.equipment + d.materials + d.services + d.indirect_costs

/-- Sum of the values of a line-item list. -/
def itemsSum (l : List BudgetItem) : ℚ := (l.map BudgetItem.value).sum

/-- One timeline phase (`_generate_timeline`). -/
structure Phase where
  phase : String
  start_month : ℕ
  end_month : ℕ
  deliverables : List String
deriving DecidableEq, Repr

/-- Duration lookup table keyed by project type (default 18 months). -/
def timelineDuration (project_type : String) : ℕ :=
  (List.lookup project_type [("research", 24), ("development", 18), ("training", 12)]).getD 18

/-- The six fixed phase names. -/
def phase_names : List String :=
  ["Planejamento e Preparação", "Execução - Fase 1", "Execução - Fase 2",
   "Validação e Testes", "Implementação Final", "Avaliação e Encerramento"]

/-- `ProjectPredictor._generate_timeline`: six phases of `duration // 6`
months each, with templated deliverables. -/
def generate_timeline (project_type : String) : List Phase :=
  let duration := timelineDuration project_type
  let phase_duration := duration / 6
  phase_names.enum.map fun p =>
    { phase := p.2
      start_month := p.1 * phase_duration + 1
      end_month := (p.1 + 1) * phase_duration
      deliverables :=
        ["Relatório de " ++ p.2, "Indicadores de " ++ p.2, "Documentação de " ++ p.2] }

/-! ## Feedback endpoint (`main.py` `process_feedback` +
`ProjectPredictor.get_feedback_count` + `BiasDetector.learn_from_feedback`) -/

/-- A feedback ledger entry (`BiasDetector.learn_from_feedback`). -/
structure FeedbackEntry where
  project_id : String
  outcome : Option PyVal
  features : PyVal

/-- Mutable service state visible to the feedback endpoint: the bias
detector's `historical_data` list. -/
structure ServiceState where
  historical_data : List FeedbackEntry

/-- A `POST /api/v1/feedback` request body. -/
structure FeedbackRequest where
  project_id : String
  feedback_type : String
  data : List (String × PyVal)

/-- The JSON body returned by the feedback endpoint. -/
structure FeedbackResponse where
  status : String
  feedback_count : ℕ
  retraining_scheduled : Bool
deriving DecidableEq, Repr

/-- `ProjectPredictor.get_feedback_count`: the source returns the
constant `42` (the production database query is left unimplemented). -/
def get_feedback_count : ℕ := 42

/-- `ProjectPredictor.store_feedback`: only logs the entry; no state is
mutated. -/
def store_feedback (s : ServiceState) (_project_id _feedback_type : String)
    (_data : List (String × PyVal)) : ServiceState := s

/-- `BiasDetector.learn_from_feedback`: appends one entry to
`historical_data` (its internal ≥100 model refit does not affect any
observable field of the endpoint response). -/
def learn_from_feedback (s : ServiceState) (project_id : String)
    (outcome : Option PyVal) (features : PyVal) : ServiceState :=
  { historical_data := s.historical_data ++ [⟨project_id, outcome, features⟩] }

/-- The `/api/v1/feedback` handler `process_feedback`: stores the
feedback, optionally feeds the bias detector, then reports
`get_feedback_count()` and schedules retraining iff that count ≥ 100. -/
def process_feedback (s : ServiceState) (req : FeedbackRequest) :
    ServiceState × FeedbackResponse :=
  let s := store_feedback s req.project_id req.feedback_type req.data
  let s :=
    if req.feedback_type = "approval_decision" then
      learn_from_feedback s req.project_id (List.lookup "outcome" req.data)
        ((List.lookup "features" req.data).getD (.pdict []))
    else s
  let feedback_count := get_feedback_count
  (s, { status := "feedback_received", feedback_count := feedback_count,
        retraining_scheduled := feedback_count ≥ 100 })

/-- Runs `n` consecutive submissions of the same request, returning the
final state and the response to the last submission. -/
def submitRepeatedly (req : FeedbackRequest) : ℕ → ServiceState → ServiceState × FeedbackResponse
  | 0, s => (s, { status := "", feedback_count := 0, retraining_scheduled := false })
  | 1, s => process_feedback s req
  | n + 2, s => submitRepeatedly req (n + 1) (process_feedback s req).1

/-! ## NLP engine: remaining definitions (`nlp_engine.py`) -/

/-- `NLPEngine._clean_text`: normalize spaces, fix punctuation, ensure
leading capitalization and sentence-final punctuation. -/
def clean_text (text : String) : String :=
  let text := " ".intercalate (pyWords text)
  let text := pyReplace (pyReplace text " ," ",") " ." "."
  let text := pyReplace (pyReplace text ",," ",") ".." "."
  let text :=
    match text.data with
    | [] => text
    | c :: rest => if c.isLower then String.mk (c.toUpper :: rest) else text
  match text.data.getLast? with
  | none => text
  | some c => if c ∉ ['.', '!', '?'] then text ++ "." else text

/-- `NLPEngine._identify_changes`: word-count delta plus newly-added key
terms. -/
def identify_changes (original improved : String) : List String :=
  let len_diff : ℤ := (pyWords improved).length - (pyWords original).length
  let changes :=
    if len_diff > 10 then ["Texto expandido em " ++ toString len_diff ++ " palavras"]
    else if len_diff < -10 then ["Texto reduzido em " ++ toString len_diff.natAbs ++ " palavras"]
    else []
  let keywords_added :=
    ["objetivo", "meta", "requisito", "diretriz", "inclusão"].filter fun k =>
      pySubstr k (strLower improved) && !pySubstr k (strLower original)
  changes ++
    (if keywords_added ≠ [] then
      ["Adicionados termos-chave: " ++ ", ".intercalate keywords_added]
    else [])

/-- The per-field boilerplate phrase table of `_enhance_text`. -/
def enhancements (field_type : String) : Option (List String) :=
  List.lookup field_type
    [("justification",
      ["considerando as diretrizes do PRONAS/PCD",
       "atendendo às necessidades da população com deficiência",
       "promovendo inclusão e acessibilidade"]),
     ("objectives",
      ["de forma mensurável e alcançável",
       "com indicadores claros de sucesso",
       "alinhado às políticas públicas vigentes"]),
     ("methodology",
      ["seguindo metodologia científica rigorosa",
       "com validação por especialistas",
       "garantindo replicabilidade e sustentabilidade"])]

/-- `NLPEngine._enhance_text`: append each field-specific phrase that is
not already a substring of the (lowered) original text, then clean. -/
def enhance_text (text field_type : String) : String :=
  let enhanced :=
    match enhancements field_type with
    | some phrases =>
      phrases.foldl
        (fun acc p => if !pySubstr p (strLower text) then acc ++ ", " ++ p else acc) text
    | none => text
  clean_text enhanced

/-- One kept entry of the `improvements` list in `improve_text`. -/
structure Improvement where
  text : String
  similarity : ℚ
  project_id : Option String
deriving DecidableEq, Repr

/-- An approved-project example offered as improvement context; `fields`
models the example dict's string-valued entries, `id` its optional id. -/
structure ApprovedExample where
  fields : List (String × String)
  id : Option String

/-- The similarity oracle: `cosine_similarity(encode x, encode y)`, the
external embedding capability composed with cosine; it may raise. -/
def SimOracle : Type := String → String → Except String ℚ

/-- The improvement-candidate loop of `improve_text`: for each example
carrying the field, compute the similarity (a fallible external call)
and keep it when `0.5 < similarity < 0.95`. -/
def improvementsFor (sim : SimOracle) (text field_type : String) :
    List ApprovedExample → Except String (List Improvement)
  | [] => .ok []
  | ex :: rest =>
    match List.lookup field_type ex.fields with
    | none => improvementsFor sim text field_type rest
    | some example_text => do
      let s ← sim text example_text
      let tail ← improvementsFor sim text field_type rest
      pure (if 0.5 < s ∧ s < 0.95 then ⟨example_text, s, ex.id⟩ :: tail else tail)

/-- Head of the stable descending sort by similarity: the leftmost
improvement of maximal similarity. -/
def bestImprovement (i : Improvement) (l : List Improvement) : Improvement :=
  l.foldl (fun acc x => if x.similarity > acc.similarity then x else acc) i

/-- The `is_unique` inner loop of `_merge_texts`: an original sentence is
unique while every reference sentence compared so far has similarity
≤ 0.85 (the loop breaks at the first similarity > 0.85). -/
def sentenceUnique (sim : SimOracle) (sent : String) :
    List String → Except String Bool
  | [] => .ok true
  | r :: rs => do
    let s ← sim sent r
    if s > 0.85 then pure false else sentenceUnique sim sent rs

/-- The sentence-keeping loop of `_merge_texts`: keep original sentences
that are unique and longer than 5 words. -/
def keptOriginals (sim : SimOracle) (rsents : List String) :
    List String → Except String (List String)
  | [] => .ok []
  | o :: os => do
    let u ← sentenceUnique sim o rsents
    let rest ← keptOriginals sim rsents os
    pure (if u ∧ (pyWords o).length > 5 then o :: rest else rest)

/-- `NLPEngine._merge_texts`.  `nlp` is the external sentence segmenter
(`doc.sents` texts). -/
def merge_texts (sim : SimOracle) (nlp : String → List String)
    (original reference field_type : String) : Except String String := do
  let original_sents := nlp original
  let reference_sents := nlp reference
  let opening := if field_type = "justification" then reference_sents.take 1 else []
  let kept ← keptOriginals sim reference_sents original_sents
  let closing :=
    if field_type = "justification" ∨ field_type = "objectives" then
      match reference_sents.getLast? with
      | some l => [l]
      | none => []
    else []
  pure (clean_text (" ".intercalate (opening ++ kept ++ closing)))

/-- The result dict of `improve_text`. -/
structure ImproveResult where
  improved_text : String
  confidence : ℚ
  reasoning : String
  changes_made : List String
deriving DecidableEq, Repr

/-- The `try:` body of `NLPEngine.improve_text` (the initial
`encode(text)` call is fused into the first similarity evaluation).
The reasoning string's percentage formatting is abstracted. -/
def improve_text_body (sim : SimOracle) (nlp : String → List String)
    (text : String) (approved_projects : List ApprovedExample)
    (field_type : String) : Except String ImproveResult := do
  let improvements ← improvementsFor sim text field_type approved_projects
  match improvements with
  | i :: rest =>
    let best := bestImprovement i rest
    let improved ← merge_texts sim nlp text best.text field_type
    pure { improved_text := improved, confidence := best.similarity,
           reasoning := "Baseado em projeto aprovado similar (ID: " ++
             best.project_id.getD "None" ++ ")",
           changes_made := identify_changes text improved }
  | [] =>
    let enhanced := enhance_text text field_type
    pure { improved_text := enhanced, confidence := 0.6,
           reasoning := "Melhorias gerais aplicadas baseadas em boas práticas",
           changes_made := identify_changes text enhanced }

/-- `NLPEngine.improve_text`: the whole body is wrapped in
`try/except`; any internal failure yields the original text with
confidence 0 and no changes. -/
def improve_text (sim : SimOracle) (nlp : String → List String)
    (text : String) (approved_projects : List ApprovedExample)
    (field_type : String) : ImproveResult :=
  match improve_text_body sim nlp text approved_projects field_type with
  | .ok r => r
  | .error _ =>
    { improved_text := text, confidence := 0,
      reasoning := "Erro ao processar melhorias", changes_made := [] }

/-! ### Section validation (`validate_section`) -/

/-- The guidelines dict as consumed by `validate_section`
(`guidelines.get("keywords", [])`). -/
structure GuidelinesDict where
  keywords : List String

/-- Per-section minimum word counts. -/
def min_lengths : List (String × ℕ) :=
  [("justification", 200), ("objectives", 50), ("methodology", 150)]

/-- Whether the length deduction fires for this section_ and content. -/
def lengthIssue (section_ content : String) : Bool :=
  match List.lookup section_ min_lengths with
  | some m => (pyWords content).length < m
  | none => false

/-- The missing keywords among the top 10 guideline keywords
(case-insensitive substring check against the content). -/
def missingKeywords (guidelines : GuidelinesDict) (content : String) : List String :=
  (guidelines.keywords.take 10).filter fun k => !pySubstr (strLower k) (strLower content)

/-- Whether the tone deduction fires: the sentiment label of the first
512 characters is a negative star rating.  `sentiment` is the external
classifier capability. -/
def toneIssue (sentiment : String → String) (content : String) : Bool :=
  sentiment (strTake content 512) ∈ ["1 star", "2 stars"]

/-- One validation issue. -/
structure Issue where
  itype : String
  message : String
deriving DecidableEq, Repr

/-- The result dict of `validate_section`. -/
structure ValidationResult where
  section_ : String
  score : ℚ
  issues : List Issue
  suggestions : List String
deriving DecidableEq, Repr

/-- `NLPEngine.validate_section`: accumulates deductions from an initial
0, then reports `max(0, min(1, 1 + accumulated))`. -/
def validate_section (sentiment : String → String) (section_ content : String)
    (guidelines : GuidelinesDict) : ValidationResult :=
  let word_count := (pyWords content).length
  let li := lengthIssue section_ content
  let missing := missingKeywords guidelines content
  let ti := toneIssue sentiment content
  let issues :=
    (if li then
      [⟨"length", section_ ++ " deve ter pelo menos " ++
        toString ((List.lookup section_ min_lengths).getD 0) ++
        " palavras (atual: " ++ toString word_count ++ ")"⟩]
    else []) ++
    (if missing ≠ [] then
      [⟨"keywords", "Palavras-chave ausentes: " ++ ", ".intercalate (missing.take 5)⟩]
    else []) ++
    (if ti then
      [⟨"tone", "Tom do texto pode ser melhorado para ser mais positivo e construtivo"⟩]
    else [])
  let raw : ℚ :=
    0 - (if li then 0.2 else 0) -
    (if missing ≠ [] then 0.1 * (missing.length : ℚ) else 0) -
    (if ti then 0.1 else 0)
  let score := max 0 (min 1 (1 + raw))
  let suggestions :=
    issues.foldr
      (fun i acc =>
        (if i.itype = "length" then
          ["Expanda " ++ section_ ++ " com mais detalhes e justificativas"]
        else if i.itype = "keywords" then
          ["Inclua termos relevantes como: " ++ ", ".intercalate (missing.take 3)]
        else []) ++ acc)
      []
  { section_ := section_, score := score, issues := issues, suggestions := suggestions }

/-! ### Guideline structuring (`process_guidelines`) -/

/-- One spaCy token, as consumed by the keyword extraction. -/
structure Token where
  text : String
  pos : String
  lemma_ : String
deriving DecidableEq, Repr

/-- One named entity span (`doc.ents`). -/
structure EntitySpan where
  text : String
  label : String
  start_char : ℕ
  end_char : ℕ
deriving DecidableEq, Repr

/-- One spaCy sentence: its text, the texts of its entities
(`sent.ents`), and its tokens. -/
structure Sent where
  text : String
  entTexts : List String
  tokens : List Token
deriving DecidableEq, Repr

/-- A spaCy document (`self.nlp(text)`): entities and sentences. -/
structure Doc where
  ents : List EntitySpan
  sents : List Sent
deriving DecidableEq, Repr

/-- The requirement-trigger keywords of `_is_requirement`. -/
def requirement_keywords : List String :=
  ["deve", "deverá", "obrigatório", "necessário",
   "requisito", "exigido", "precisa", "essencial"]

/-- `NLPEngine._is_requirement` (on the lowered sentence). -/
def is_requirement (text : String) : Bool :=
  requirement_keywords.any fun k => pySubstr k text

/-- The objective-trigger keywords of `_is_objective`. -/
def objective_keywords : List String :=
  ["objetivo", "meta", "finalidade", "propósito",
   "visa", "busca", "pretende", "almeja"]

/-- `NLPEngine._is_objective`. -/
def is_objective (text : String) : Bool :=
  objective_keywords.any fun k => pySubstr k text

/-- The restriction-trigger keywords of `_is_restriction`. -/
def restriction_keywords : List String :=
  ["não pode", "proibido", "vedado", "limitado",
   "restrição", "impedido", "exceto", "salvo"]

/-- `NLPEngine._is_restriction`. -/
def is_restriction (text : String) : Bool :=
  restriction_keywords.any fun k => pySubstr k text

/-- `NLPEngine._classify_restriction`. -/
def classify_restriction (text : String) : String :=
  if pySubstr "orçamento" (strLower text) || pySubstr "valor" (strLower text) then "budget"
  else if pySubstr "prazo" (strLower text) || pySubstr "tempo" (strLower text) then "timeline"
  else if pySubstr "equipe" (strLower text) || pySubstr "profissional" (strLower text) then "team"
  else "general"

/-- `NLPEngine._extract_priority`. -/
def extract_priority (text : String) : String :=
  let tl := strLower text
  if ["principal", "fundamental", "prioritário", "crítico"].any (fun w => pySubstr w tl) then
    "high"
  else if ["secundário", "opcional", "desejável"].any (fun w => pySubstr w tl) then
    "low"
  else "medium"

/-- A structured requirement fact. -/
structure Requirement where
  text : String
  entities : List String
  embedding : List ℚ
  mandatory : Bool
deriving DecidableEq, Repr

/-- A structured objective fact. -/
structure Objective where
  text : String
  embedding : List ℚ
  priority : String
deriving DecidableEq, Repr

/-- A structured restriction fact. -/
structure Restriction where
  text : String
  rtype : String
  severity : String
deriving DecidableEq, Repr

/-- The dict returned by `process_guidelines` (the keyword set is
modelled as an insertion-ordered duplicate-free list). -/
structure ProcessedGuidelines where
  requirements : List Requirement
  objectives : List Objective
  restrictions : List Restriction
  keywords : List String
  entities : List EntitySpan
deriving DecidableEq, Repr

/-- Set insertion for the keyword set. -/
def addKeyword (ks : List String) (k : String) : List String :=
  if ks.contains k then ks else ks ++ [k]

/-- The keyword-extraction inner loop: add the lemma of every noun or
proper-noun token whose text is longer than 3 characters. -/
def sentKeywords (ks : List String) (tokens : List Token) : List String :=
  tokens.foldl
    (fun acc t =>
      if (t.pos = "NOUN" ∨ t.pos = "PROPN") ∧ t.text.length > 3 then
        addKeyword acc t.lemma_
      else acc)
    ks

/-- The requirement record built for a matching sentence. -/
def mkRequirement (encode : String → List ℚ) (s : Sent) : Requirement :=
  let sent_text := strTrim s.text
  let sent_lower := strLower sent_text
  { text := sent_text, entities := s.entTexts, embedding := encode sent_text,
    mandatory := pySubstr "deve" sent_lower || pySubstr "obrigatório" sent_lower }

/-- The objective record built for a matching sentence. -/
def mkObjective (encode : String → List ℚ) (s : Sent) : Objective :=
  let sent_text := strTrim s.text
  { text := sent_text, embedding := encode sent_text,
    priority := extract_priority sent_text }

/-- The restriction record built for a matching sentence. -/
def mkRestriction (s : Sent) : Restriction :=
  let sent_text := strTrim s.text
  { text := sent_text, rtype := classify_restriction sent_text,
    severity := if pySubstr "vedado" (strLower sent_text) then "high" else "medium" }

/-- Processing of one sentence inside `process_guidelines`: the
`if/elif/elif` classification (first match wins) followed by the
unconditional keyword extraction. -/
def processSent (encode : String → List ℚ) (acc : ProcessedGuidelines)
    (s : Sent) : ProcessedGuidelines :=
  let sent_lower := strLower (strTrim s.text)
  let acc :=
    if is_requirement sent_lower then
      { acc with requirements := acc.requirements ++ [mkRequirement encode s] }
    else if is_objective sent_lower then
      { acc with objectives := acc.objectives ++ [mkObjective encode s] }
    else if is_restriction sent_lower then
      { acc with restrictions := acc.restrictions ++ [mkRestriction s] }
    else acc
  { acc with keywords := sentKeywords acc.keywords s.tokens }

/-- Processing of one document: entity collection then the sentence
loop. -/
def processDoc (encode : String → List ℚ) (acc : ProcessedGuidelines)
    (d : Doc) : ProcessedGuidelines :=
  let acc := { acc with entities := acc.entities ++ d.ents }
  d.sents.foldl (processSent encode) acc

/-- `NLPEngine.process_guidelines`.  `nlp` is the external spaCy
pipeline, `encode` the external sentence-embedding capability. -/
def process_guidelines (nlp : String → Doc) (encode : String → List ℚ)
    (texts : List String) : ProcessedGuidelines :=
  (texts.map nlp).foldl (processDoc encode) ⟨[], [], [], [], []⟩

/-- The classification of one (lowered) sentence by the first-match-wins
`if/elif` chain: the predicate deciding membership in the requirements
list. -/
def classifiedRequirement (s : Sent) : Bool :=
  is_requirement (strLower (strTrim s.text))

/-- Membership predicate for the objectives list. -/
def classifiedObjective (s : Sent) : Bool :=
  !is_requirement (strLower (strTrim s.text)) && is_objective (strLower (strTrim s.text))

/-- Membership predicate for the restrictions list. -/
def classifiedRestriction (s : Sent) : Bool :=
  !is_requirement (strLower (strTrim s.text)) && !is_objective (strLower (strTrim s.text)) &&
    is_restriction (strLower (strTrim s.text))

/-! ## General helper lemmas -/

/-- Bind on a successful `Except` computation. -/
theorem exbind_ok {ε α β : Type} (a : α) (f : α → Except ε β) :
    (Bind.bind (Except.ok a) f) = f a := rfl

/-- Bind on a failed `Except` computation propagates the error. -/
theorem exbind_error {ε α β : Type} (e : ε) (f : α → Except ε β) :
    (Bind.bind (Except.error e) f : Except ε β) = Except.error e := rfl

/-- A conditional between two successful results is successful. -/
theorem exceptOk_ite_pure {ε α : Type} (c : Prop) [Decidable c] (a b : α) :
    exceptOk (if c then (pure a : Except ε α) else pure b) = true := by
  split <;> rfl

/-- `exceptOk` on a success. -/
theorem exceptOk_ok {ε α : Type} (a : α) : exceptOk (Except.ok (ε := ε) a) = true := rfl

/-- `exceptOk` on a failure. -/
theorem exceptOk_error {ε α : Type} (e : ε) :
    exceptOk (Except.error (α := α) e) = false := rfl

/-- A default phase for indexed access in timeline statements. -/
def dummyPhase : Phase := ⟨"", 0, 0, []⟩

/-! ## Claim theorems -/

/-- C4: for every budget total used by the synthesizer, the generated
budget uses the fixed fractional split {human_resources 0.40,
equipment 0.20, materials 0.15, services 0.15, indirect_costs 0.10},
the five distribution values sum to the total (exactly, hence within
1e-6 relative tolerance), each category's itemized line items sum to
that category's distribution share, and for total 200000 the
human_resources share is 80000. -/
theorem generate_budget_distribution_sums (project_type : String) (seed_budget : Option ℚ) :
    ((generate_budget project_type seed_budget).distribution.human_resources
        = (generate_budget project_type seed_budget).total * 0.40) ∧
    ((generate_budget project_type seed_budget).distribution.equipment
        = (generate_budget project_type seed_budget).total * 0.20) ∧
    ((generate_budget project_type seed_budget).distribution.materials
        = (generate_budget project_type seed_budget).total * 0.15) ∧
    ((generate_budget project_type seed_budget).distribution.services
        = (generate_budget project_type seed_budget).total * 0.15) ∧
    ((generate_budget project_type seed_budget).distribution.indirect_costs
        = (generate_budget project_type seed_budget).total * 0.10) ∧
    (distributionSum (generate_budget project_type seed_budget).distribution
        = (generate_budget project_type seed_budget).total) ∧
    (|distributionSum (generate_budget project_type seed_budget).distribution -
        (generate_budget project_type seed_budget).total|
        ≤ 1 / 1000000 * |(generate_budget project_type seed_budget).total|) ∧
    (itemsSum (generate_budget project_type seed_budget).items.human_resources
        = (generate_budget project_type seed_budget).distribution.human_resources) ∧
    (itemsSum (generate_budget project_type seed_budget).items.equipment
        = (generate_budget project_type seed_budget).distribution.equipment) ∧
    (itemsSum (generate_budget project_type seed_budget).items.materials
        = (generate_budget project_type seed_budget).distribution.materials) ∧
    (itemsSum (generate_budget project_type seed_budget).items.services
        = (generate_budget project_type seed_budget).distribution.services) ∧
    (itemsSum (generate_budget project_type seed_budget).items.indirect_costs
        = (generate_budget project_type seed_budget).distribution.indirect_costs) ∧
    ((generate_budget "training" (some 200000)).distribution.human_resources = 80000) := by
  refine ⟨?_, ?_, ?_, ?_, ?_, ?_, ?_, ?_, ?_, ?_, ?_, ?_, ?_⟩ <;>
    simp [generate_budget, distributionSum, itemsSum] <;> ring_nf <;> norm_num

/-- C5: for each project type in the known set (research 24 months,
development 18, training 12), the timeline has exactly 6 phases of
equal length `duration / 6`, consecutive phases are non-overlapping
(each starts the month after the previous one ends, so the months are
monotonically increasing), and for `training` the duration is 12 months
with 6 phases of 2 months each. -/
theorem generate_timeline_six_phases (pt : String)
    (h : pt = "research" ∨ pt = "development" ∨ pt = "training") :
    ((generate_timeline pt).length = 6) ∧
    (∀ i < 5, ((generate_timeline pt).getD (i + 1) dummyPhase).start_month
        = ((generate_timeline pt).getD i dummyPhase).end_month + 1) ∧
    (∀ p ∈ generate_timeline pt, p.start_month ≤ p.end_month ∧
        p.end_month + 1 - p.start_month = timelineDuration pt / 6) ∧
    (timelineDuration "training" = 12 ∧
        ∀ p ∈ generate_timeline "training", p.end_month + 1 - p.start_month = 2) := by
  rcases h with h | h | h <;> subst h <;> exact ⟨by decide, by decide, by decide, by decide⟩

/-- C5 witness: the theorem instantiated at `training`. -/
theorem generate_timeline_six_phases_witness :
    ((generate_timeline "training").length = 6) ∧
    (∀ p ∈ generate_timeline "training", p.start_month ≤ p.end_month ∧
        p.end_month + 1 - p.start_month = timelineDuration "training" / 6) :=
  ⟨(generate_timeline_six_phases "training" (Or.inr (Or.inr rfl))).1,
   (generate_timeline_six_phases "training" (Or.inr (Or.inr rfl))).2.2.1⟩

/-- C1 (code behaviour at the claimed failing input): the feedback
endpoint's pending count is the stubbed constant 42 — not the ledger
size — so `retraining_scheduled` is `false` on every submission; in
particular after 100 consecutive submissions the 100th response still
reports `retraining_scheduled = false` and `feedback_count = 42`. -/
theorem feedback_endpoint_never_schedules_retraining :
    (∀ (s : ServiceState) (req : FeedbackRequest),
      (process_feedback s req).2 =
        { status := "feedback_received", feedback_count := 42,
          retraining_scheduled := false }) ∧
    (∀ (req : FeedbackRequest) (s : ServiceState),
      (submitRepeatedly req 100 s).2.retraining_scheduled = false ∧
      (submitRepeatedly req 100 s).2.feedback_count = 42) := by
  have hresp : ∀ (s : ServiceState) (req : FeedbackRequest),
      (process_feedback s req).2 =
        { status := "feedback_received", feedback_count := 42,
          retraining_scheduled := false } := fun s req => rfl
  have hlast : ∀ (req : FeedbackRequest) (n : ℕ) (s : ServiceState),
      (submitRepeatedly req (n + 1) s).2 =
        { status := "feedback_received", feedback_count := 42,
          retraining_scheduled := false } := by
    intro req n
    induction n with
    | zero => intro s; exact hresp s req
    | succ k ih =>
      intro s
      show (submitRepeatedly req (k + 2) s).2 = _
      rw [submitRepeatedly]
      exact ih _
  refine ⟨hresp, fun req s => ?_⟩
  have h := hlast req 99 s
  rw [show (100 : ℕ) = 99 + 1 from rfl, h]
  exact ⟨rfl, rfl⟩

/-- The detected-pattern list built by `analyze` is the in-order filter
of the four detector results. -/
theorem patterns_eq_filter (r1 r2 r3 r4 : BiasResult) :
    (if r1.detected then [r1] else []) ++ (if r2.detected then [r2] else []) ++
      (if r3.detected then [r3] else []) ++ (if r4.detected then [r4] else [])
      = [r1, r2, r3, r4].filter BiasResult.detected := by
  cases hb1 : r1.detected <;> cases hb2 : r2.detected <;> cases hb3 : r3.detected <;>
    cases hb4 : r4.detected <;> simp [List.filter, hb1, hb2, hb3, hb4]

/-- C2 (amended): `analyze` has no per-detector exception handling — it
succeeds exactly when all four detectors succeed, so the failure of any
one detector aborts the whole call (the first error propagates and no
`BiasReport` is produced). -/
theorem analyze_ok_iff_all_detectors_ok (fm : FairnessMetrics) (pd : PData) :
    exceptOk (analyze fm pd) =
      (exceptOk (detectInstitutionalBias pd) && exceptOk (detectGeographicBias pd) &&
       exceptOk (detectComplexityBias pd) && exceptOk (detectBudgetBias pd)) := by
  cases h1 : detectInstitutionalBias pd <;>
    cases h2 : detectGeographicBias pd <;>
      cases h3 : detectComplexityBias pd <;>
        cases h4 : detectBudgetBias pd <;>
          simp [analyze, h1, h2, h3, h4, exbind_ok, exbind_error,
            exceptOk_ite_pure, exceptOk_ok, exceptOk_error]

/-- A payload whose `region` value is a number, not a string: a real
input on which the geographic detector raises `AttributeError`. -/
def pdBadRegion : PData := [("institution_type", .pstr "ngo"), ("region", .pnum 5)]

/-- An arbitrary sampled fairness-metrics triple. -/
def fmSample : FairnessMetrics := ⟨0.8, 0.85, 1⟩

/-- C2 counterexample: on `pdBadRegion` the institutional detector
succeeds but the geographic detector fails, and `analyze` returns that
error instead of a report in which the failing detector contributes
`detected = false, score = 0` — refuting the claim that one detector's
failure does not abort the other detectors or the overall call. -/
theorem analyze_detector_failure_aborts :
    detectInstitutionalBias pdBadRegion =
      .ok { type_ := "institutional", detected := false, score := 0, description := "" } ∧
    detectGeographicBias pdBadRegion = .error "AttributeError: lower" ∧
    analyze fmSample pdBadRegion = .error "AttributeError: lower" := by
  have h1 : detectInstitutionalBias pdBadRegion =
      .ok { type_ := "institutional", detected := false, score := 0, description := "" } := by
    simp [detectInstitutionalBias, pdBadRegion, topGet, pyInStrKeys,
      approval_rates, avg_approval, exbind_ok, exbind_error, List.lookup,
      pure, Except.pure]
    norm_num [lt_abs, abs_le]
  have h2 : detectGeographicBias pdBadRegion = .error "AttributeError: lower" := rfl
  exact ⟨h1, h2, by simp only [analyze, h1, h2, exbind_ok, exbind_error]⟩

/-- C3: when `analyze` returns a report, its `patterns` are exactly the
flagged detector results (in detector order), `bias_detected` holds iff
at least one pattern was flagged, `bias_score` is the arithmetic mean of
the flagged patterns' scores, and with no flagged pattern the score is
exactly 0 (no NaN is possible over `ℚ`), `bias_detected` is false and
the recommendations list is empty. -/
theorem analyze_aggregate_report (fm : FairnessMetrics) (pd : PData)
    (r1 r2 r3 r4 : BiasResult) (report : BiasReport)
    (h1 : detectInstitutionalBias pd = .ok r1)
    (h2 : detectGeographicBias pd = .ok r2)
    (h3 : detectComplexityBias pd = .ok r3)
    (h4 : detectBudgetBias pd = .ok r4)
    (hrep : analyze fm pd = .ok report) :
    report.patterns = [r1, r2, r3, r4].filter BiasResult.detected ∧
    (report.bias_detected = true ↔ report.patterns ≠ []) ∧
    (report.patterns ≠ [] →
      report.bias_score = meanScore report.patterns ∧
      report.bias_score =
        ((report.patterns.map BiasResult.score).sum) / report.patterns.length) ∧
    (report.patterns = [] →
      report.bias_score = 0 ∧ report.bias_detected = false ∧
      report.recommendations = []) := by
  simp only [analyze, h1, h2, h3, h4, exbind_ok, patterns_eq_filter] at hrep
  split at hrep
  case isTrue hemp =>
    have hnil : [r1, r2, r3, r4].filter BiasResult.detected = [] :=
      List.isEmpty_iff.mp hemp
    have hr : report =
        { bias_detected := false, bias_score := 0, patterns := [],
          recommendations := [], fairness_metrics := fm } := by
      cases hrep; rfl
    subst hr
    refine ⟨hnil.symm, by simp, ?_, fun _ => ⟨rfl, rfl, rfl⟩⟩
    intro hne
    exact absurd rfl hne
  case isFalse hemp =>
    have hne : [r1, r2, r3, r4].filter BiasResult.detected ≠ [] := by
      intro hx
      exact hemp (by simp [hx])
    have hr : report =
        { bias_detected := true,
          bias_score := meanScore ([r1, r2, r3, r4].filter BiasResult.detected),
          patterns := [r1, r2, r3, r4].filter BiasResult.detected,
          recommendations :=
            ([r1, r2, r3, r4].filter BiasResult.detected).foldr
              (fun p acc => recommendationFor p ++ acc) [],
          fairness_metrics := fm } := by
      cases hrep; rfl
    subst hr
    exact ⟨rfl, by simpa using hne, fun _ => ⟨rfl, rfl⟩, fun hx => absurd hx hne⟩

/-- The empty request payload. -/
def pdEmpty : PData := []

/-- The budget-bias result for a missing/zero budget total: the
0–100000 range has approval rate 0.35 < 0.4, so the pattern is flagged
with score |0.35 − 0.5| = 0.15. -/
def budgetZeroResult : BiasResult :=
  { type_ := "budget", detected := true, score := 0.15,
    description := "Projetos na faixa a partir de R$ 0 têm taxa de aprovação baixa" }

/-- The report `analyze` produces on the empty payload: only the budget
pattern is flagged, so the mean score is that pattern's score. -/
def reportEmpty : BiasReport :=
  { bias_detected := true, bias_score := 0.15, patterns := [budgetZeroResult],
    recommendations :=
      ["Revise o orçamento para alinhar com faixas de maior probabilidade de aprovação ou justifique detalhadamente os valores"],
    fairness_metrics := fmSample }

/-- C3 witness: the aggregate-report theorem applied to the empty
payload, on which all four detectors succeed and only the budget
pattern is flagged. -/
theorem analyze_aggregate_report_witness :
    reportEmpty.patterns =
      [{ type_ := "institutional", detected := false, score := 0, description := "" },
       { type_ := "geographic", detected := false, score := 0, description := "" },
       { type_ := "complexity", detected := false, score := 0, description := "" },
       budgetZeroResult].filter BiasResult.detected ∧
    (reportEmpty.bias_detected = true ↔ reportEmpty.patterns ≠ []) ∧
    (reportEmpty.patterns ≠ [] →
      reportEmpty.bias_score = meanScore reportEmpty.patterns ∧
      reportEmpty.bias_score =
        ((reportEmpty.patterns.map BiasResult.score).sum) / reportEmpty.patterns.length) ∧
    (reportEmpty.patterns = [] →
      reportEmpty.bias_score = 0 ∧ reportEmpty.bias_detected = false ∧
      reportEmpty.recommendations = []) := by
  have h1 : detectInstitutionalBias pdEmpty =
      .ok { type_ := "institutional", detected := false, score := 0, description := "" } := rfl
  have h2 : detectGeographicBias pdEmpty =
      .ok { type_ := "geographic", detected := false, score := 0, description := "" } := rfl
  have h3 : detectComplexityBias pdEmpty =
      .ok { type_ := "complexity", detected := false, score := 0, description := "" } := by
    simp [detectComplexityBias, pdEmpty, topGet, pyGetE, pyLen, pyToNum,
      exbind_ok, pure, Except.pure]
    norm_num
  have h4 : detectBudgetBias pdEmpty = .ok budgetZeroResult := by
    simp [detectBudgetBias, pdEmpty, topGet, pyGetE, pyToNum, exbind_ok,
      findBudgetRange, findRangeAux, budget_ranges, budgetZeroResult,
      pure, Except.pure]
    norm_num [abs_le]
    decide
  have hrep : analyze fmSample pdEmpty = .ok reportEmpty := by
    simp only [analyze, h1, h2, h3, h4, exbind_ok]
    simp [meanScore, budgetZeroResult, recommendationFor, reportEmpty,
      pure, Except.pure]
  exact analyze_aggregate_report fmSample pdEmpty _ _ _ _ reportEmpty h1 h2 h3 h4 hrep

/-- A sentiment classifier that always returns a positive label. -/
def sentimentFive : String → String := fun _ => "5 stars"

/-- Ten guideline keywords. -/
def g10 : GuidelinesDict :=
  ⟨["alpha", "bravo", "charlie", "delta", "echo",
    "foxtrot", "golf", "hotel", "india", "juliett"]⟩

/-- 50 filler words: meets the `objectives` length minimum but contains
no guideline keyword. -/
def contentA : String := String.intercalate " " (List.replicate 50 "zzz")

/-- 9 words containing 9 of the 10 keywords: below the length minimum
and missing exactly one keyword. -/
def contentB : String := "alpha bravo charlie delta echo foxtrot golf hotel india"

set_option maxRecDepth 4000 in
/-- C6 counterexample: `contentA` yields one issue (all 10 keywords
missing, deduction 1.0, score 0) while `contentB` yields two issues
(length + one missing keyword, deduction 0.3, score 0.7): the score is
not monotonically non-increasing in the number of issues found. -/
theorem validate_section_issue_count_not_monotone :
    (validate_section sentimentFive "objectives" contentA g10).issues.length = 1 ∧
    (validate_section sentimentFive "objectives" contentB g10).issues.length = 2 ∧
    (validate_section sentimentFive "objectives" contentA g10).score = 0 ∧
    (validate_section sentimentFive "objectives" contentB g10).score = 0.7 ∧
    (validate_section sentimentFive "objectives" contentA g10).score <
      (validate_section sentimentFive "objectives" contentB g10).score := by
  have hliA : lengthIssue "objectives" contentA = false := by decide
  have hliB : lengthIssue "objectives" contentB = true := by decide
  have hmB : missingKeywords g10 contentB = ["juliett"] := by decide
  have hmA : missingKeywords g10 contentA =
      ["alpha", "bravo", "charlie", "delta", "echo",
       "foxtrot", "golf", "hotel", "india", "juliett"] := by decide
  have htA : toneIssue sentimentFive contentA = false := by decide
  have htB : toneIssue sentimentFive contentB = false := by decide
  have hsA : (validate_section sentimentFive "objectives" contentA g10).score = 0 := by
    simp [validate_section, hliA, hmA, htA]
    norm_num [max_def, min_def]
  have hsB : (validate_section sentimentFive "objectives" contentB g10).score = 0.7 := by
    simp [validate_section, hliB, hmB, htB]
    norm_num [max_def, min_def]
  refine ⟨?_, ?_, hsA, hsB, ?_⟩
  · simp [validate_section, hliA, hmA, htA]
  · simp [validate_section, hliB, hmB, htB]
  · rw [hsA, hsB]; norm_num

/-- C6 (amended): the score is `clamp01(1 − D)` where `D` sums a 0.2
deduction for a below-minimum word count, 0.1 per missing keyword among
the top 10 guideline keywords, and 0.1 for a negative sentiment label —
so it always lies in `[0, 1]`, equals 1 when no issue is found, and is
monotonically non-increasing in the issues' total deduction (each
additional issue or missing keyword never raises it).  It is `not`
monotone in the bare number of issues, because the keyword deduction
scales with the number of missing keywords. -/
theorem validate_section_score_formula :
    (∀ (sentiment : String → String) (section_ content : String) (g : GuidelinesDict),
      0 ≤ (validate_section sentiment section_ content g).score ∧
      (validate_section sentiment section_ content g).score ≤ 1 ∧
      (validate_section sentiment section_ content g).score =
        max 0 (min 1 (1 - ((if lengthIssue section_ content then 0.2 else 0) +
          0.1 * ((missingKeywords g content).length : ℚ) +
          (if toneIssue sentiment content then 0.1 else 0)))) ∧
      ((validate_section sentiment section_ content g).issues = [] →
        (validate_section sentiment section_ content g).score = 1)) ∧
    (∀ (s1 s2 : String → String) (sec1 sec2 c1 c2 : String) (g1 g2 : GuidelinesDict),
      (lengthIssue sec1 c1 = true → lengthIssue sec2 c2 = true) →
      (missingKeywords g1 c1).length ≤ (missingKeywords g2 c2).length →
      (toneIssue s1 c1 = true → toneIssue s2 c2 = true) →
      (validate_section s2 sec2 c2 g2).score ≤ (validate_section s1 sec1 c1 g1).score) := by
  have hform : ∀ (sentiment : String → String) (section_ content : String)
      (g : GuidelinesDict),
      (validate_section sentiment section_ content g).score =
        max 0 (min 1 (1 - ((if lengthIssue section_ content then 0.2 else 0) +
          0.1 * ((missingKeywords g content).length : ℚ) +
          (if toneIssue sentiment content then 0.1 else 0)))) := by
    intro sentiment section_ content g
    by_cases hm : missingKeywords g content = [] <;>
      simp [validate_section, hm] <;> ring_nf
  have hlow : ∀ x : ℚ, 0 ≤ max 0 (min 1 x) := fun x => le_max_left _ _
  have hhigh : ∀ x : ℚ, max 0 (min 1 x) ≤ 1 :=
    fun x => max_le (by norm_num) (min_le_left _ _)
  have hanti : ∀ x y : ℚ, x ≤ y →
      max 0 (min 1 (1 - y)) ≤ max 0 (min 1 (1 - x)) :=
    fun x y h => max_le_max le_rfl (min_le_min le_rfl (by linarith))
  constructor
  · intro sentiment section_ content g
    refine ⟨by rw [hform]; exact hlow _, by rw [hform]; exact hhigh _, hform .., ?_⟩
    intro hiss
    have hli : lengthIssue section_ content = false := by
      by_contra hc
      have : lengthIssue section_ content = true := by
        cases hx : lengthIssue section_ content
        · exact absurd hx hc
        · rfl
      simp [validate_section, this] at hiss
    have hti : toneIssue sentiment content = false := by
      by_contra hc
      have : toneIssue sentiment content = true := by
        cases hx : toneIssue sentiment content
        · exact absurd hx hc
        · rfl
      simp [validate_section, this] at hiss
    have hm : missingKeywords g content = [] := by
      by_contra hc
      simp [validate_section, hc] at hiss
    rw [hform, hli, hm, hti]
    norm_num
  · intro s1 s2 sec1 sec2 c1 c2 g1 g2 hl hm ht
    rw [hform, hform]
    apply hanti
    have h1 : (if lengthIssue sec1 c1 then (0.2 : ℚ) else 0) ≤
        (if lengthIssue sec2 c2 then 0.2 else 0) := by
      by_cases hx : lengthIssue sec1 c1 = true
      · rw [if_pos hx, if_pos (hl hx)]
      · rw [if_neg hx]
        split <;> norm_num
    have h2 : (0.1 : ℚ) * ((missingKeywords g1 c1).length : ℚ) ≤
        0.1 * ((missingKeywords g2 c2).length : ℚ) := by
      have : ((missingKeywords g1 c1).length : ℚ) ≤
          ((missingKeywords g2 c2).length : ℚ) := by exact_mod_cast hm
      linarith
    have h3 : (if toneIssue s1 c1 then (0.1 : ℚ) else 0) ≤
        (if toneIssue s2 c2 then 0.1 else 0) := by
      by_cases hx : toneIssue s1 c1 = true
      · rw [if_pos hx, if_pos (ht hx)]
      · rw [if_neg hx]
        split <;> norm_num
    -- combine the three componentwise bounds
    have := add_le_add (add_le_add h1 h2) h3
    simpa using this

/-- C6 witness: the amended theorem applied at concrete inputs — the
bounds/formula part at `contentB`, and the monotonicity part comparing
`contentB` (length issue + 1 missing keyword) against a 1-word content
missing all 10 keywords. -/
theorem validate_section_score_formula_witness :
    (0 ≤ (validate_section sentimentFive "objectives" contentB g10).score ∧
      (validate_section sentimentFive "objectives" contentB g10).score ≤ 1) ∧
    (validate_section sentimentFive "objectives" "foo" g10).score ≤
      (validate_section sentimentFive "objectives" contentB g10).score :=
  ⟨⟨(validate_section_score_formula.1 sentimentFive "objectives" contentB g10).1,
    (validate_section_score_formula.1 sentimentFive "objectives" contentB g10).2.1⟩,
   validate_section_score_formula.2 sentimentFive sentimentFive
     "objectives" "objectives" contentB "foo" g10 g10
     (by decide) (by decide) (by decide)⟩

/-! ### Characterization lemmas for `process_guidelines` -/

/-- All sentences of all documents, in processing order. -/
def allSents (nlp : String → Doc) (texts : List String) : List Sent :=
  ((texts.map nlp).map Doc.sents).flatten

/-- One sentence step: effect on the requirements list. -/
theorem processSent_requirements (e : String → List ℚ) (acc : ProcessedGuidelines)
    (s : Sent) :
    (processSent e acc s).requirements =
      acc.requirements ++ (if classifiedRequirement s then [mkRequirement e s] else []) := by
  by_cases h1 : is_requirement (strLower (strTrim s.text)) <;>
    by_cases h2 : is_objective (strLower (strTrim s.text)) <;>
      by_cases h3 : is_restriction (strLower (strTrim s.text)) <;>
        simp [processSent, classifiedRequirement, h1, h2, h3]

/-- One sentence step: effect on the objectives list. -/
theorem processSent_objectives (e : String → List ℚ) (acc : ProcessedGuidelines)
    (s : Sent) :
    (processSent e acc s).objectives =
      acc.objectives ++ (if classifiedObjective s then [mkObjective e s] else []) := by
  by_cases h1 : is_requirement (strLower (strTrim s.text)) <;>
    by_cases h2 : is_objective (strLower (strTrim s.text)) <;>
      by_cases h3 : is_restriction (strLower (strTrim s.text)) <;>
        simp [processSent, classifiedObjective, h1, h2, h3]

/-- One sentence step: effect on the restrictions list. -/
theorem processSent_restrictions (e : String → List ℚ) (acc : ProcessedGuidelines)
    (s : Sent) :
    (processSent e acc s).restrictions =
      acc.restrictions ++ (if classifiedRestriction s then [mkRestriction s] else []) := by
  by_cases h1 : is_requirement (strLower (strTrim s.text)) <;>
    by_cases h2 : is_objective (strLower (strTrim s.text)) <;>
      by_cases h3 : is_restriction (strLower (strTrim s.text)) <;>
        simp [processSent, classifiedRestriction, h1, h2, h3]

/-- One sentence step: effect on the keyword set. -/
theorem processSent_keywords (e : String → List ℚ) (acc : ProcessedGuidelines)
    (s : Sent) :
    (processSent e acc s).keywords = sentKeywords acc.keywords s.tokens := by
  by_cases h1 : is_requirement (strLower (strTrim s.text)) <;>
    by_cases h2 : is_objective (strLower (strTrim s.text)) <;>
      by_cases h3 : is_restriction (strLower (strTrim s.text)) <;>
        simp [processSent, h1, h2, h3]

/-- The sentence fold: requirements are appended in filter order. -/
theorem foldSents_requirements (e : String → List ℚ) (l : List Sent) :
    ∀ acc : ProcessedGuidelines,
      (l.foldl (processSent e) acc).requirements =
        acc.requirements ++ (l.filter classifiedRequirement).map (mkRequirement e) := by
  induction l with
  | nil => intro acc; simp
  | cons s t ih =>
    intro acc
    simp only [List.foldl_cons, ih, processSent_requirements, List.filter_cons]
    by_cases h : classifiedRequirement s <;> simp [h]

/-- The sentence fold: objectives are appended in filter order. -/
theorem foldSents_objectives (e : String → List ℚ) (l : List Sent) :
    ∀ acc : ProcessedGuidelines,
      (l.foldl (processSent e) acc).objectives =
        acc.objectives ++ (l.filter classifiedObjective).map (mkObjective e) := by
  induction l with
  | nil => intro acc; simp
  | cons s t ih =>
    intro acc
    simp only [List.foldl_cons, ih, processSent_objectives, List.filter_cons]
    by_cases h : classifiedObjective s <;> simp [h]

/-- The sentence fold: restrictions are appended in filter order. -/
theorem foldSents_restrictions (e : String → List ℚ) (l : List Sent) :
    ∀ acc : ProcessedGuidelines,
      (l.foldl (processSent e) acc).restrictions =
        acc.restrictions ++ (l.filter classifiedRestriction).map mkRestriction := by
  induction l with
  | nil => intro acc; simp
  | cons s t ih =>
    intro acc
    simp only [List.foldl_cons, ih, processSent_restrictions, List.filter_cons]
    by_cases h : classifiedRestriction s <;> simp [h]

/-- Keyword-set insertions preserve membership. -/
theorem addKeyword_mem_preserve {x : String} (ks : List String) (k : String)
    (h : x ∈ ks) : x ∈ addKeyword ks k := by
  by_cases hk : k ∈ ks <;> simp [addKeyword, hk, h]

/-- The inserted keyword is a member. -/
theorem addKeyword_mem_self (ks : List String) (k : String) : k ∈ addKeyword ks k := by
  by_cases hk : k ∈ ks <;> simp [addKeyword, hk]

/-- The token loop preserves existing keywords. -/
theorem sentKeywords_preserve {x : String} (ts : List Token) :
    ∀ ks : List String, x ∈ ks → x ∈ sentKeywords ks ts := by
  induction ts with
  | nil => intro ks h; simpa [sentKeywords] using h
  | cons t rest ih =>
    intro ks h
    simp only [sentKeywords, List.foldl_cons]
    by_cases hc : (t.pos = "NOUN" ∨ t.pos = "PROPN") ∧ t.text.length > 3
    · rw [if_pos hc]
      exact ih _ (addKeyword_mem_preserve _ _ h)
    · rw [if_neg hc]
      exact ih _ h

/-- Every qualifying token's lemma enters the keyword set. -/
theorem sentKeywords_mem (ts : List Token) :
    ∀ (ks : List String) (t : Token), t ∈ ts →
      (t.pos = "NOUN" ∨ t.pos = "PROPN") → t.text.length > 3 →
      t.lemma_ ∈ sentKeywords ks ts := by
  induction ts with
  | nil => intro ks t h; cases h
  | cons u rest ih =>
    intro ks t hmem hpos hlen
    rcases List.mem_cons.mp hmem with h | h
    · subst h
      simp only [sentKeywords, List.foldl_cons]
      rw [if_pos ⟨hpos, hlen⟩]
      exact sentKeywords_preserve _ _ (addKeyword_mem_self _ _)
    · simp only [sentKeywords, List.foldl_cons]
      by_cases hc : (u.pos = "NOUN" ∨ u.pos = "PROPN") ∧ u.text.length > 3
      · rw [if_pos hc]
        exact ih _ t h hpos hlen
      · rw [if_neg hc]
        exact ih _ t h hpos hlen

/-- The sentence fold preserves existing keywords. -/
theorem foldSents_keywords_preserve (e : String → List ℚ) {x : String}
    (l : List Sent) :
    ∀ acc : ProcessedGuidelines, x ∈ acc.keywords →
      x ∈ (l.foldl (processSent e) acc).keywords := by
  induction l with
  | nil => intro acc h; simpa using h
  | cons s t ih =>
    intro acc h
    simp only [List.foldl_cons]
    exact ih _ (by rw [processSent_keywords]; exact sentKeywords_preserve _ _ h)

/-- Every qualifying token of every sentence contributes its lemma. -/
theorem foldSents_keywords_mem (e : String → List ℚ) (l : List Sent) :
    ∀ (acc : ProcessedGuidelines) (s : Sent) (t : Token), s ∈ l → t ∈ s.tokens →
      (t.pos = "NOUN" ∨ t.pos = "PROPN") → t.text.length > 3 →
      t.lemma_ ∈ (l.foldl (processSent e) acc).keywords := by
  induction l with
  | nil => intro acc s t h; cases h
  | cons u rest ih =>
    intro acc s t hmem htok hpos hlen
    rcases List.mem_cons.mp hmem with h | h
    · subst h
      simp only [List.foldl_cons]
      apply foldSents_keywords_preserve
      rw [processSent_keywords]
      exact sentKeywords_mem _ _ _ htok hpos hlen
    · simp only [List.foldl_cons]
      exact ih _ s t h htok hpos hlen

/-- One document step: effect on each structured output list. -/
theorem processDoc_fields (e : String → List ℚ) (acc : ProcessedGuidelines) (d : Doc) :
    (processDoc e acc d).requirements =
      acc.requirements ++ (d.sents.filter classifiedRequirement).map (mkRequirement e) ∧
    (processDoc e acc d).objectives =
      acc.objectives ++ (d.sents.filter classifiedObjective).map (mkObjective e) ∧
    (processDoc e acc d).restrictions =
      acc.restrictions ++ (d.sents.filter classifiedRestriction).map mkRestriction := by
  refine ⟨?_, ?_, ?_⟩ <;>
    simp [processDoc, foldSents_requirements, foldSents_objectives, foldSents_restrictions]

/-- The document fold: requirements over all documents. -/
theorem foldDocs_requirements (e : String → List ℚ) (ds : List Doc) :
    ∀ acc : ProcessedGuidelines,
      (ds.foldl (processDoc e) acc).requirements =
        acc.requirements ++
          ((ds.map Doc.sents).flatten.filter classifiedRequirement).map (mkRequirement e) := by
  induction ds with
  | nil => intro acc; simp
  | cons d rest ih =>
    intro acc
    simp [List.foldl_cons, ih, (processDoc_fields e acc d).1,
      List.filter_append, List.append_assoc]

/-- The document fold: objectives over all documents. -/
theorem foldDocs_objectives (e : String → List ℚ) (ds : List Doc) :
    ∀ acc : ProcessedGuidelines,
      (ds.foldl (processDoc e) acc).objectives =
        acc.objectives ++
          ((ds.map Doc.sents).flatten.filter classifiedObjective).map (mkObjective e) := by
  induction ds with
  | nil => intro acc; simp
  | cons d rest ih =>
    intro acc
    simp [List.foldl_cons, ih, (processDoc_fields e acc d).2.1,
      List.filter_append, List.append_assoc]

/-- The document fold: restrictions over all documents. -/
theorem foldDocs_restrictions (e : String → List ℚ) (ds : List Doc) :
    ∀ acc : ProcessedGuidelines,
      (ds.foldl (processDoc e) acc).restrictions =
        acc.restrictions ++
          ((ds.map Doc.sents).flatten.filter classifiedRestriction).map mkRestriction := by
  induction ds with
  | nil => intro acc; simp
  | cons d rest ih =>
    intro acc
    simp [List.foldl_cons, ih, (processDoc_fields e acc d).2.2,
      List.filter_append, List.append_assoc]

/-- The document fold preserves existing keywords. -/
theorem foldDocs_keywords_preserve (e : String → List ℚ) {x : String} (ds : List Doc) :
    ∀ acc : ProcessedGuidelines, x ∈ acc.keywords →
      x ∈ (ds.foldl (processDoc e) acc).keywords := by
  induction ds with
  | nil => intro acc h; simpa using h
  | cons d rest ih =>
    intro acc h
    simp only [List.foldl_cons]
    apply ih
    simp only [processDoc]
    exact foldSents_keywords_preserve e _ _ h

/-- The document fold collects every qualifying token's lemma. -/
theorem foldDocs_keywords_mem (e : String → List ℚ) (ds : List Doc) :
    ∀ (acc : ProcessedGuidelines) (s : Sent) (t : Token),
      (∃ d ∈ ds, s ∈ d.sents) → t ∈ s.tokens →
      (t.pos = "NOUN" ∨ t.pos = "PROPN") → t.text.length > 3 →
      t.lemma_ ∈ (ds.foldl (processDoc e) acc).keywords := by
  induction ds with
  | nil =>
    intro acc s t h
    rcases h with ⟨d, hd, _⟩
    cases hd
  | cons d rest ih =>
    intro acc s t hmem htok hpos hlen
    rcases hmem with ⟨d1, hd1, hs⟩
    rcases List.mem_cons.mp hd1 with h | h
    · subst h
      simp only [List.foldl_cons]
      apply foldDocs_keywords_preserve
      simp only [processDoc]
      exact foldSents_keywords_mem e _ _ s t hs htok hpos hlen
    · simp only [List.foldl_cons]
      exact ih _ s t ⟨d1, h, hs⟩ htok hpos hlen

/-- C7: the three structured lists of `process_guidelines` are exactly
the in-order filters of all sentences under the first-match-wins rule
order requirement → objective → restriction; the three classification
predicates are mutually exclusive, so each sentence lands in at most one
list; and every noun/proper-noun token longer than 3 characters of every
sentence — including sentences matching no rule, which appear in none of
the three lists — contributes its lemma to the keyword set. -/
theorem process_guidelines_first_match_classification
    (nlp : String → Doc) (encode : String → List ℚ) (texts : List String) :
    ((process_guidelines nlp encode texts).requirements =
      ((allSents nlp texts).filter classifiedRequirement).map (mkRequirement encode)) ∧
    ((process_guidelines nlp encode texts).objectives =
      ((allSents nlp texts).filter classifiedObjective).map (mkObjective encode)) ∧
    ((process_guidelines nlp encode texts).restrictions =
      ((allSents nlp texts).filter classifiedRestriction).map mkRestriction) ∧
    (∀ s : Sent, ¬(classifiedRequirement s = true ∧ classifiedObjective s = true) ∧
      ¬(classifiedRequirement s = true ∧ classifiedRestriction s = true) ∧
      ¬(classifiedObjective s = true ∧ classifiedRestriction s = true)) ∧
    (∀ s ∈ allSents nlp texts, ∀ t ∈ s.tokens,
      (t.pos = "NOUN" ∨ t.pos = "PROPN") → t.text.length > 3 →
      t.lemma_ ∈ (process_guidelines nlp encode texts).keywords) := by
  refine ⟨?_, ?_, ?_, ?_, ?_⟩
  · simpa [process_guidelines, allSents] using
      foldDocs_requirements encode (texts.map nlp) ⟨[], [], [], [], []⟩
  · simpa [process_guidelines, allSents] using
      foldDocs_objectives encode (texts.map nlp) ⟨[], [], [], [], []⟩
  · simpa [process_guidelines, allSents] using
      foldDocs_restrictions encode (texts.map nlp) ⟨[], [], [], [], []⟩
  · intro s
    refine ⟨?_, ?_, ?_⟩
    · rintro ⟨h1, h2⟩
      simp only [classifiedRequirement] at h1
      simp [classifiedObjective, h1] at h2
    · rintro ⟨h1, h2⟩
      simp only [classifiedRequirement] at h1
      simp [classifiedRestriction, h1] at h2
    · rintro ⟨h1, h2⟩
      simp only [classifiedObjective, Bool.and_eq_true, Bool.not_eq_true'] at h1
      simp [classifiedRestriction, h1.1, h1.2] at h2
  · intro s hs t ht hpos hlen
    have hd : ∃ d ∈ texts.map nlp, s ∈ d.sents := by
      rcases (by simpa [allSents] using hs :
          ∃ a, a ∈ texts ∧ s ∈ (nlp a).sents) with ⟨a, ha, hsa⟩
      exact ⟨nlp a, List.mem_map_of_mem nlp ha, hsa⟩
    simpa [process_guidelines] using
      foldDocs_keywords_mem encode (texts.map nlp) ⟨[], [], [], [], []⟩ s t hd ht hpos hlen

/-- A one-sentence document whose sentence matches no classification
rule but carries a noun token longer than 3 characters. -/
def docCasa : Doc :=
  ⟨[], [⟨"A casa fica azul", [], [⟨"casa", "NOUN", "casa"⟩]⟩]⟩

/-- A constant spaCy stub returning `docCasa`. -/
def nlpCasa : String → Doc := fun _ => docCasa

/-- A constant embedding stub. -/
def encodeW : String → List ℚ := fun _ => []

/-- C7 witness: the classification theorem applied to a concrete
unclassified sentence — its noun lemma reaches the keyword set while all
three structured lists stay empty. -/
theorem process_guidelines_first_match_classification_witness :
    "casa" ∈ (process_guidelines nlpCasa encodeW ["diretriz"]).keywords ∧
    (process_guidelines nlpCasa encodeW ["diretriz"]).requirements = [] ∧
    (process_guidelines nlpCasa encodeW ["diretriz"]).objectives = [] ∧
    (process_guidelines nlpCasa encodeW ["diretriz"]).restrictions = [] :=
  ⟨(process_guidelines_first_match_classification nlpCasa encodeW ["diretriz"]).2.2.2.2
      ⟨"A casa fica azul", [], [⟨"casa", "NOUN", "casa"⟩]⟩ (by decide)
      ⟨"casa", "NOUN", "casa"⟩ (by decide) (by decide) (by decide),
   by
    rw [(process_guidelines_first_match_classification nlpCasa encodeW ["diretriz"]).1]
    decide,
   by
    rw [(process_guidelines_first_match_classification nlpCasa encodeW ["diretriz"]).2.1]
    decide,
   by
    rw [(process_guidelines_first_match_classification nlpCasa encodeW
      ["diretriz"]).2.2.1]
    decide⟩

/-- C8: every sentence stored as a requirement has `mandatory` true iff
it contains one of the two obligation-strength markers (`deve`,
`obrigatório`) — a strict subset of the eight requirement triggers — so
a sentence classified as a requirement by a generic marker alone (e.g.
`necessário`, `precisa`) has `mandatory = false`. -/
theorem requirement_mandatory_iff_obligation_marker
    (nlp : String → Doc) (encode : String → List ℚ) (texts : List String) :
    ∀ r ∈ (process_guidelines nlp encode texts).requirements,
      (r.mandatory =
        (pySubstr "deve" (strLower r.text) || pySubstr "obrigatório" (strLower r.text))) ∧
      is_requirement (strLower r.text) = true ∧
      ((pySubstr "deve" (strLower r.text) = false ∧
        pySubstr "obrigatório" (strLower r.text) = false) → r.mandatory = false) := by
  intro r hr
  rw [show (process_guidelines nlp encode texts).requirements =
      ((allSents nlp texts).filter classifiedRequirement).map (mkRequirement encode) from by
    simpa [process_guidelines, allSents] using
      foldDocs_requirements encode (texts.map nlp) ⟨[], [], [], [], []⟩] at hr
  rcases List.mem_map.mp hr with ⟨s, hs, rfl⟩
  have hcl : classifiedRequirement s = true := (List.mem_filter.mp hs).2
  refine ⟨rfl, hcl, ?_⟩
  rintro ⟨hd, ho⟩
  show (mkRequirement encode s).mandatory = false
  simp only [mkRequirement] at hd ho ⊢
  rw [hd, ho]
  rfl

/-- A one-sentence document whose sentence is a requirement via the
generic marker `precisa` only. -/
def docPrecisa : Doc :=
  ⟨[], [⟨"a obra precisa ter rampa", [], []⟩]⟩

/-- A constant spaCy stub returning `docPrecisa`. -/
def nlpPrecisa : String → Doc := fun _ => docPrecisa

/-- C8 witness: the requirement produced from a sentence containing only
the generic marker `precisa` has `mandatory = false`. -/
theorem requirement_mandatory_iff_obligation_marker_witness :
    (mkRequirement encodeW ⟨"a obra precisa ter rampa", [], []⟩).mandatory = false :=
  (requirement_mandatory_iff_obligation_marker nlpPrecisa encodeW ["edital"]
      (mkRequirement encodeW ⟨"a obra precisa ter rampa", [], []⟩)
      (by decide)).2.2 (by decide)

/-! ### Lemmas about the improvement-candidate loop -/

/-- Every kept improvement candidate has similarity strictly between 0.5
and 0.95. -/
theorem improvementsFor_bounds (sim : SimOracle) (text field_type : String) :
    ∀ (exs : List ApprovedExample) (imps : List Improvement),
      improvementsFor sim text field_type exs = .ok imps →
      ∀ imp ∈ imps, 0.5 < imp.similarity ∧ imp.similarity < 0.95 := by
  intro exs
  induction exs with
  | nil =>
    intro imps h imp hmem
    cases h
    cases hmem
  | cons ex rest ih =>
    intro imps h imp hmem
    simp only [improvementsFor] at h
    cases hlk : List.lookup field_type ex.fields with
    | none =>
      simp only [hlk] at h
      exact ih imps h imp hmem
    | some extext =>
      simp only [hlk] at h
      cases hsim : sim text extext with
      | error e => rw [hsim] at h; cases h
      | ok s =>
        rw [hsim, exbind_ok] at h
        cases htail : improvementsFor sim text field_type rest with
        | error e => rw [htail] at h; cases h
        | ok tail =>
          rw [htail, exbind_ok] at h
          by_cases hc : 0.5 < s ∧ s < 0.95
          · rw [if_pos hc] at h
            cases h
            rcases List.mem_cons.mp hmem with h | h
            · subst h; exact hc
            · exact ih _ htail imp h
          · rw [if_neg hc] at h
            cases h
            exact ih _ htail imp hmem

/-- Every example carrying the field whose similarity lies strictly in
(0.5, 0.95) contributes its candidate to the kept list. -/
theorem improvementsFor_complete (sim : SimOracle) (text field_type : String) :
    ∀ (exs : List ApprovedExample) (imps : List Improvement),
      improvementsFor sim text field_type exs = .ok imps →
      ∀ ex ∈ exs, ∀ extext, List.lookup field_type ex.fields = some extext →
        ∀ s, sim text extext = .ok s → 0.5 < s → s < 0.95 →
          Improvement.mk extext s ex.id ∈ imps := by
  intro exs
  induction exs with
  | nil =>
    intro imps h ex hmem
    cases hmem
  | cons ex0 rest ih =>
    intro imps h ex hmem extext hlk s hsim hlo hhi
    simp only [improvementsFor] at h
    rcases List.mem_cons.mp hmem with heq | htl
    · subst heq
      simp only [hlk] at h
      rw [hsim, exbind_ok] at h
      cases htail : improvementsFor sim text field_type rest with
      | error e => rw [htail] at h; cases h
      | ok tail =>
        rw [htail, exbind_ok] at h
        rw [if_pos ⟨hlo, hhi⟩] at h
        cases h
        exact List.mem_cons_self _ _
    · cases hlk0 : List.lookup field_type ex0.fields with
      | none =>
        simp only [hlk0] at h
        exact ih imps h ex htl extext hlk s hsim hlo hhi
      | some extext0 =>
        simp only [hlk0] at h
        cases hsim0 : sim text extext0 with
        | error e => rw [hsim0] at h; cases h
        | ok s0 =>
          rw [hsim0, exbind_ok] at h
          cases htail : improvementsFor sim text field_type rest with
          | error e => rw [htail] at h; cases h
          | ok tail =>
            rw [htail, exbind_ok] at h
            have hmemtail := ih tail htail ex htl extext hlk s hsim hlo hhi
            by_cases hc : 0.5 < s0 ∧ s0 < 0.95
            · rw [if_pos hc] at h
              cases h
              exact List.mem_cons_of_mem _ hmemtail
            · rw [if_neg hc] at h
              cases h
              exact hmemtail

/-- The head of the stable descending sort is an element of the list. -/
theorem bestImprovement_mem (l : List Improvement) :
    ∀ i : Improvement, bestImprovement i l ∈ i :: l := by
  induction l with
  | nil => intro i; simp [bestImprovement]
  | cons x t ih =>
    intro i
    have hstep : bestImprovement i (x :: t) =
        bestImprovement (if x.similarity > i.similarity then x else i) t := rfl
    rw [hstep]
    rcases List.mem_cons.mp (ih (if x.similarity > i.similarity then x else i)) with h | h
    · rw [h]
      split <;> simp
    · exact List.mem_cons_of_mem _ (List.mem_cons_of_mem _ h)

/-- The head of the stable descending sort has maximal similarity. -/
theorem bestImprovement_max (l : List Improvement) :
    ∀ i : Improvement, ∀ j ∈ i :: l,
      j.similarity ≤ (bestImprovement i l).similarity := by
  induction l with
  | nil =>
    intro i j hj
    rcases List.mem_cons.mp hj with h | h
    · subst h; exact le_refl _
    · cases h
  | cons x t ih =>
    intro i j hj
    have hstep : bestImprovement i (x :: t) =
        bestImprovement (if x.similarity > i.similarity then x else i) t := rfl
    rw [hstep]
    have hio : i.similarity ≤ (if x.similarity > i.similarity then x else i).similarity := by
      split <;> [exact le_of_lt (by assumption); exact le_refl _]
    have hxo : x.similarity ≤ (if x.similarity > i.similarity then x else i).similarity := by
      split
      · exact le_refl _
      · exact le_of_not_lt (by assumption)
    have hhead := ih (if x.similarity > i.similarity then x else i)
    rcases List.mem_cons.mp hj with h | h
    · subst h
      exact le_trans hio (hhead _ (List.mem_cons_self _ _))
    · rcases List.mem_cons.mp h with h2 | h2
      · subst h2
        exact le_trans hxo (hhead _ (List.mem_cons_self _ _))
      · exact hhead j (List.mem_cons_of_mem _ h2)

/-- Folding the conditional phrase-append equals folding the plain
append over the filtered phrases. -/
theorem foldl_enhance_filter (text : String) :
    ∀ (ps : List String) (acc : String),
      ps.foldl (fun acc p =>
          if !pySubstr p (strLower text) then acc ++ ", " ++ p else acc) acc =
        (ps.filter fun p => !pySubstr p (strLower text)).foldl
          (fun acc p => acc ++ ", " ++ p) acc := by
  intro ps
  induction ps with
  | nil => intro acc; rfl
  | cons p t ih =>
    intro acc
    simp only [List.foldl_cons, List.filter_cons]
    by_cases hc : (!pySubstr p (strLower text)) = true
    · rw [hc, if_pos rfl]
      simp only [List.foldl_cons]
      exact ih _
    · rw [Bool.not_eq_true] at hc
      rw [hc]
      simpa using ih acc

/-- C9: `improve_text` keeps exactly the candidates whose similarity to
the input is strictly between 0.5 and 0.95; on the merge path it merges
with the highest-similarity kept candidate and returns that candidate's
similarity as confidence; when no candidate qualifies the fallback pass
returns confidence exactly 0.6 and appends (before cleaning) exactly the
field-specific boilerplate phrases not already present in the text. -/
theorem improve_text_selection_and_confidence
    (sim : SimOracle) (nlp : String → List String) (text : String)
    (approved_projects : List ApprovedExample) (field_type : String) :
    (∀ imps, improvementsFor sim text field_type approved_projects = .ok imps →
      ((∀ imp ∈ imps, 0.5 < imp.similarity ∧ imp.similarity < 0.95) ∧
       (∀ ex ∈ approved_projects, ∀ extext,
          List.lookup field_type ex.fields = some extext →
          ∀ s, sim text extext = .ok s → 0.5 < s → s < 0.95 →
            Improvement.mk extext s ex.id ∈ imps) ∧
       (∀ i rest, imps = i :: rest →
         bestImprovement i rest ∈ imps ∧
         (∀ j ∈ imps, j.similarity ≤ (bestImprovement i rest).similarity) ∧
         (∀ merged,
            merge_texts sim nlp text (bestImprovement i rest).text field_type = .ok merged →
            improve_text sim nlp text approved_projects field_type =
              { improved_text := merged,
                confidence := (bestImprovement i rest).similarity,
                reasoning := "Baseado em projeto aprovado similar (ID: " ++
                  (bestImprovement i rest).project_id.getD "None" ++ ")",
                changes_made := identify_changes text merged })) ∧
       (imps = [] →
         improve_text sim nlp text approved_projects field_type =
           { improved_text := enhance_text text field_type, confidence := 0.6,
             reasoning := "Melhorias gerais aplicadas baseadas em boas práticas",
             changes_made := identify_changes text (enhance_text text field_type) }))) ∧
    (∀ phrases, enhancements field_type = some phrases →
      enhance_text text field_type =
        clean_text ((phrases.filter fun p => !pySubstr p (strLower text)).foldl
          (fun acc p => acc ++ ", " ++ p) text)) := by
  constructor
  · intro imps himps
    refine ⟨improvementsFor_bounds sim text field_type approved_projects imps himps,
      improvementsFor_complete sim text field_type approved_projects imps himps,
      ?_, ?_⟩
    · intro i rest hcons
      subst hcons
      refine ⟨bestImprovement_mem rest i, bestImprovement_max rest i, ?_⟩
      intro merged hmerge
      simp only [improve_text, improve_text_body, himps, exbind_ok, hmerge,
        pure, Except.pure]
    · intro hnil
      subst hnil
      simp only [improve_text, improve_text_body, himps, exbind_ok, pure, Except.pure]
  · intro phrases hph
    simp only [enhance_text, hph]
    rw [foldl_enhance_filter]

/-- C10: the whole body of `improve_text` sits in a `try/except`; if any
internal step fails, the call never propagates the exception and instead
returns the original text unchanged with confidence exactly 0 and an
empty `changes_made` list. -/
theorem improve_text_failure_returns_original
    (sim : SimOracle) (nlp : String → List String) (text : String)
    (approved_projects : List ApprovedExample) (field_type : String) (e : String)
    (h : improve_text_body sim nlp text approved_projects field_type = .error e) :
    improve_text sim nlp text approved_projects field_type =
      { improved_text := text, confidence := 0,
        reasoning := "Erro ao processar melhorias", changes_made := [] } := by
  simp only [improve_text, h]

/-- An approved example carrying a justification field. -/
def exW : ApprovedExample :=
  ⟨[("justification", "esta justificativa apresenta fundamentos claros e objetivos")],
   some "proj_123"⟩

/-- A similarity oracle that always fails, modelling an unavailable
embedding capability. -/
def simFail : SimOracle := fun _ _ => .error "embedding indisponível"

/-- A one-sentence segmenter stub. -/
def nlpOne : String → List String := fun s => [s]

/-- C10 witness: with a failing embedding capability and an example that
forces a similarity call, `improve_text` returns the original text,
confidence 0 and no changes. -/
theorem improve_text_failure_returns_original_witness :
    improve_text simFail nlpOne "texto" [exW] "justification" =
      { improved_text := "texto", confidence := 0,
        reasoning := "Erro ao processar melhorias", changes_made := [] } :=
  improve_text_failure_returns_original simFail nlpOne "texto" [exW] "justification"
    "embedding indisponível" rfl

/-- A constant similarity oracle returning 0.8. -/
def simCte : SimOracle := fun _ _ => .ok 0.8

/-- The reference text of `exW`. -/
def refW : String := "esta justificativa apresenta fundamentos claros e objetivos"

/-- The improvement candidate kept from `exW` under `simCte`. -/
def impW : Improvement := ⟨refW, 0.8, some "proj_123"⟩

/-- The merge of the one-sentence original with `refW` on the
justification path (reference opening + no kept original + reference
closing). -/
def mergedW : String := clean_text (String.intercalate " " ([refW] ++ [] ++ [refW]))

/-- C9 witness: the selection theorem applied to one approved example
with similarity 0.8 — the candidate is kept, it is the best one, and
`improve_text` returns the merged text with confidence 0.8. -/
theorem improve_text_selection_and_confidence_witness :
    impW ∈ [impW] ∧
    improve_text simCte nlpOne "texto" [exW] "justification" =
      { improved_text := mergedW, confidence := impW.similarity,
        reasoning := "Baseado em projeto aprovado similar (ID: " ++
          impW.project_id.getD "None" ++ ")",
        changes_made := identify_changes "texto" mergedW } := by
  have himps : improvementsFor simCte "texto" "justification" [exW] = .ok [impW] := by
    simp [improvementsFor, exW, simCte, impW, refW, exbind_ok, pure, Except.pure]
    norm_num
  have hw : ¬ ((pyWords "texto").length > 5) := by decide
  have hmerge : merge_texts simCte nlpOne "texto" refW "justification" = .ok mergedW := by
    simp [merge_texts, nlpOne, keptOriginals, sentenceUnique, simCte, exbind_ok,
      pure, Except.pure, mergedW, hw]
    norm_num [exbind_ok]
  have h := (improve_text_selection_and_confidence simCte nlpOne "texto" [exW]
    "justification").1 [impW] himps
  have h3 := (h.2.2.1 impW [] rfl).2.2 mergedW
    (by simpa [bestImprovement] using hmerge)
  exact ⟨List.mem_cons_self _ _, by simpa [bestImprovement] using h3⟩

end Pronas
